import Mathlib

/-!
Shallow embedding of the credential and token lifecycle subsystem of the
Curvvtech backend (Node/Express + mongoose sources):

* `src/models/User.js` — user schema with password hashing, lockout counters
  and the per-account refresh-token membership list;
* `src/models/TokenBlacklist.js` — the revocation registry;
* `src/middleware/auth.js` — `authenticateToken` / `authenticateRefreshToken`;
* `src/controllers/authController.js` — `login`, `refreshToken`, `logout`,
  `logoutAll`.

Times are modelled as natural numbers (milliseconds, as `Date.now()`); JWTs
are modelled as structures carrying their decoded payload and the secret they
were signed with, so that `jwt.verify(token, secret)` is signature comparison
plus the expiry check, and `jwt.decode` is payload projection without any
check.  Storage writes that the code fires and forgets, or whose failure the
code swallows, are modelled with an explicit `storeOk : Bool` switch.
-/

namespace Curvv

/-- Token class tag (the `type` claim inside the JWT payload). -/
inductive TokenType where
  | access
  | refresh
deriving DecidableEq, Repr

/-- Decoded JWT payload.  Access tokens carry `email` and `role`
(`User.generateAccessToken`), refresh tokens do not
(`User.generateRefreshToken`); `exp` is the expiry instant, present on every
token this system signs (both issuance paths pass `expiresIn`), but kept
optional because `jwt.decode` of a foreign token may lack it. -/
structure Payload where
  id : String
  email : Option String
  role : Option String
  type : TokenType
  exp : Option Nat
deriving DecidableEq, Repr

/-- A presented token: either a well-formed JWT (payload plus the secret it
was signed with) or an undecodable string. -/
inductive Tok where
  | signed (p : Payload) (secret : String)
  | garbage (s : String)
deriving DecidableEq, Repr

/-- Errors thrown by `jsonwebtoken`'s `verify`. -/
inductive JwtErr where
  | jsonWebTokenError
  | tokenExpiredError
deriving DecidableEq, Repr

/-- `jwt.decode(token)`: payload projection, no verification. -/
def jwtDecode : Tok → Option Payload
  | .signed p _ => some p
  | .garbage _ => none

/-- `jwt.verify(token, secret)` at time `now`: rejects an undecodable token or
a wrong signature with `JsonWebTokenError`, a passed expiry with
`TokenExpiredError`. -/
def jwtVerify (t : Tok) (secret : String) (now : Nat) : Except JwtErr Payload :=
  match t with
  | .garbage _ => .error .jsonWebTokenError
  | .signed p s =>
    if s == secret then
      match p.exp with
      | some e => if e ≤ now then .error .tokenExpiredError else .ok p
      | none => .ok p
    else .error .jsonWebTokenError

/-- The expiry carried by a token's decodable payload, if any. -/
def tokExp (t : Tok) : Option Nat :=
  match jwtDecode t with
  | some p => p.exp
  | none => none

/-- User record (`userSchema`).  `refreshTokens` keeps only the `token` field
of each subdocument, which is the only field the code ever reads. -/
structure User where
  id : String
  name : String
  email : String
  password : String
  role : String
  isActive : Bool
  refreshTokens : List Tok
  lastLogin : Option Nat
  loginAttempts : Nat
  lockUntil : Option Nat
deriving DecidableEq, Repr

/-- bcrypt hashing, abstracted as an injective tagging of the plaintext (the
pre-save hook stores `bcrypt.hash(password, salt)`). -/
def bcryptHash (plaintext : String) : String :=
  "$2a$12$" ++ plaintext

/-- `userSchema.methods.comparePassword`. -/
def comparePassword (u : User) (candidate : String) : Bool :=
  u.password == bcryptHash candidate

/-- `userSchema.virtual('isLocked')`: lock-until is set and in the future. -/
def isLocked (u : User) (now : Nat) : Bool :=
  match u.lockUntil with
  | some t => now < t
  | none => false

/-- 15 minutes in milliseconds (`15 * 60 * 1000`). -/
def lockDurationMs : Nat := 15 * 60 * 1000

/-- `userSchema.methods.incLoginAttempts`: increment the counter, and set the
lock when the incremented counter reaches 5 and the account is not currently
locked. -/
def incLoginAttempts (u : User) (now : Nat) : User :=
  if 5 ≤ u.loginAttempts + 1
      && !(isLocked { u with loginAttempts := u.loginAttempts + 1 } now) then
    { u with loginAttempts := u.loginAttempts + 1,
             lockUntil := some (now + lockDurationMs) }
  else
    { u with loginAttempts := u.loginAttempts + 1 }

/-- `userSchema.methods.updateLastLogin`. -/
def updateLastLogin (u : User) (now : Nat) : User :=
  { u with lastLogin := some now, loginAttempts := 0, lockUntil := none }

/-- `userSchema.methods.addRefreshToken` (also the push performed inside
`generateRefreshToken`): appends a membership entry. -/
def addRefreshToken (u : User) (t : Tok) : User :=
  { u with refreshTokens := u.refreshTokens ++ [t] }

/-- `userSchema.methods.removeRefreshToken`: filters out every entry whose
token equals the argument. -/
def removeRefreshToken (u : User) (t : Tok) : User :=
  { u with refreshTokens := u.refreshTokens.filter (fun rt => !(rt == t)) }

/-- `userSchema.methods.hasRefreshToken`: `some(rt => rt.token === token)`. -/
def hasRefreshToken (u : User) (t : Tok) : Bool :=
  u.refreshTokens.any (fun rt => rt == t)

/-- The two signing secrets (`JWT_SECRET`, `JWT_REFRESH_SECRET`). -/
structure Cfg where
  jwtSecret : String
  jwtRefreshSecret : String
deriving DecidableEq, Repr

/-- Access-token lifetime (`JWT_EXPIRES_IN` default `15m`), in ms. -/
def accessTtlMs : Nat := 15 * 60 * 1000

/-- Refresh-token lifetime (`JWT_REFRESH_EXPIRES_IN` default `7d`), in ms. -/
def refreshTtlMs : Nat := 7 * 24 * 60 * 60 * 1000

/-- `userSchema.methods.generateAccessToken`: signs id, email, role and the
`access` class tag with `JWT_SECRET`. -/
def generateAccessToken (cfg : Cfg) (u : User) (now : Nat) : Tok :=
  .signed
    { id := u.id, email := some u.email, role := some u.role,
      type := .access, exp := some (now + accessTtlMs) }
    cfg.jwtSecret

/-- The token minted by `userSchema.methods.generateRefreshToken`: signs id
and the `refresh` class tag with `JWT_REFRESH_SECRET`. -/
def mkRefreshTok (cfg : Cfg) (u : User) (now : Nat) : Tok :=
  .signed
    { id := u.id, email := none, role := none,
      type := .refresh, exp := some (now + refreshTtlMs) }
    cfg.jwtRefreshSecret

/-- Revocation registry entry (`tokenBlacklistSchema`). -/
structure BkEntry where
  token : Tok
  type : TokenType
  userId : String
  expiresAt : Nat
  reason : String
deriving DecidableEq, Repr

/-- `TokenBlacklist.isBlacklisted`: direct lookup by raw token encoding. -/
def isBlacklisted (bl : List BkEntry) (t : Tok) : Bool :=
  bl.any (fun e => e.token == t)

/-- `TokenBlacklist.addToBlacklist`: wraps the insert in try/catch and
returns `false` instead of raising, both on a storage error (`storeOk =
false`) and on the duplicate-unique-key error when the token is already
present. -/
def addToBlacklist (bl : List BkEntry) (storeOk : Bool) (t : Tok)
    (uid : String) (ty : TokenType) (expAt : Nat) (reason : String) :
    List BkEntry × Bool :=
  if !storeOk || isBlacklisted bl t then (bl, false)
  else (bl ++ [⟨t, ty, uid, expAt, reason⟩], true)

/-- The persistent store: the users collection and the revocation registry. -/
structure Db where
  users : List User
  blacklist : List BkEntry
deriving DecidableEq, Repr

/-- `document.save()` at the collection level: overwrite the record with the
same `_id`. -/
def saveUser (db : Db) (u : User) : Db :=
  { db with users := db.users.map (fun v => if v.id == u.id then u else v) }

/-- `User.findOne({email})`. -/
def findByEmail (db : Db) (email : String) : Option User :=
  db.users.find? (fun u => u.email == email)

/-- `User.findByRefreshToken`: membership lookup
(`findOne({'refreshTokens.token': token})`). -/
def findByRefreshToken (db : Db) (t : Tok) : Option User :=
  db.users.find? (fun u => hasRefreshToken u t)

/-- `User.findById`. -/
def findById (db : Db) (id : String) : Option User :=
  db.users.find? (fun u => u.id == id)

/-- An error response: HTTP status and message (every such response also
carries `success: false` in the code). -/
structure ErrResp where
  status : Nat
  message : String
deriving DecidableEq, Repr

/-- A terminal response with an explicit `success` flag (used by logout and
logout-all, which always report success). -/
structure SimpleResp where
  status : Nat
  success : Bool
  message : String
deriving DecidableEq, Repr

/-- JSON field values appearing in serialized user objects. -/
inductive JVal where
  | s (v : String)
  | n (v : Nat)
  | b (v : Bool)
  | onat (v : Option Nat)
  | toks (v : List Tok)
deriving DecidableEq, Repr

/-- `document.toObject()`: every stored field of the user record. -/
def toObject (u : User) : List (String × JVal) :=
  [("_id", .s u.id), ("name", .s u.name), ("email", .s u.email),
   ("password", .s u.password), ("role", .s u.role),
   ("isActive", .b u.isActive), ("refreshTokens", .toks u.refreshTokens),
   ("lastLogin", .onat u.lastLogin), ("loginAttempts", .n u.loginAttempts),
   ("lockUntil", .onat u.lockUntil)]

/-- `userSchema.methods.toJSON`: `toObject` with the `password` and
`refreshTokens` fields deleted. -/
def toJSON (u : User) : List (String × JVal) :=
  (toObject u).filter (fun kv => !(kv.1 == "password") && !(kv.1 == "refreshTokens"))

/-- JS property read on a serialized object (`undefined` renders as null). -/
def jget (js : List (String × JVal)) (k : String) : JVal :=
  match js.find? (fun kv => kv.1 == k) with
  | some kv => kv.2
  | none => .onat none

/-- The user object the login controller returns: it reads `_id`, `name`,
`email`, `role`, `lastLogin` off `user.toJSON()`. -/
def jpick (js : List (String × JVal)) : List (String × JVal) :=
  [("id", jget js "_id"), ("name", jget js "name"), ("email", jget js "email"),
   ("role", jget js "role"), ("lastLogin", jget js "lastLogin")]

/-- Successful login response body. -/
structure LoginOk where
  accessToken : Tok
  refreshToken : Tok
  user : List (String × JVal)
deriving DecidableEq, Repr

def invalidCredMsg : String := "Invalid email or password"

def deactivatedMsg : String := "User account is deactivated"

def lockedMsg : String :=
  "Account is temporarily locked due to multiple failed login attempts"

/-- `POST /auth/login` (`authController.login`).  Branch order as in the
source: lookup, active check, lock check, password check (incrementing the
lockout counter on failure), then `updateLastLogin`, token issuance and the
response.  `refreshSaveOk` is the outcome of the `this.save()` that
`generateRefreshToken` fires without awaiting: the in-memory document gets
the pushed membership entry either way and the response is built from it,
but the store only reflects it when that save succeeds. -/
def login (cfg : Cfg) (db : Db) (email pw : String) (now : Nat)
    (refreshSaveOk : Bool) : Except ErrResp LoginOk × Db :=
  match findByEmail db email with
  | none => (.error ⟨401, invalidCredMsg⟩, db)
  | some u =>
    if !u.isActive then (.error ⟨401, deactivatedMsg⟩, db)
    else if isLocked u now then (.error ⟨401, lockedMsg⟩, db)
    else if !(comparePassword u pw) then
      (.error ⟨401, invalidCredMsg⟩, saveUser db (incLoginAttempts u now))
    else
      let u1 := updateLastLogin u now
      let db1 := saveUser db u1
      let access := generateAccessToken cfg u1 now
      let refresh := mkRefreshTok cfg u1 now
      let u2 := addRefreshToken u1 refresh
      let db2 := if refreshSaveOk then saveUser db1 u2 else db1
      (.ok ⟨access, refresh, jpick (toJSON u2)⟩, db2)

/-- `authenticateToken` middleware: blacklist check, verify against
`JWT_SECRET`, class check, user resolution, active and lock checks. -/
def authenticateToken (cfg : Cfg) (db : Db) (tok : Option Tok) (now : Nat) :
    Except ErrResp User :=
  match tok with
  | none => .error ⟨401, "Access token is required"⟩
  | some t =>
    if isBlacklisted db.blacklist t then .error ⟨401, "Token has been revoked"⟩
    else
      match jwtVerify t cfg.jwtSecret now with
      | .error .jsonWebTokenError => .error ⟨401, "Invalid token"⟩
      | .error .tokenExpiredError => .error ⟨401, "Token has expired"⟩
      | .ok p =>
        if p.type != .access then .error ⟨401, "Invalid token type"⟩
        else
          match findById db p.id with
          | none => .error ⟨401, "Invalid token - user not found"⟩
          | some u =>
            if !u.isActive then .error ⟨401, deactivatedMsg⟩
            else if isLocked u now then .error ⟨401, lockedMsg⟩
            else .ok u

/-- `authenticateRefreshToken` middleware: blacklist check, verify against
`JWT_REFRESH_SECRET`, class check, membership lookup, active and lock
checks. -/
def authenticateRefreshToken (cfg : Cfg) (db : Db) (rt : Option Tok)
    (now : Nat) : Except ErrResp User :=
  match rt with
  | none => .error ⟨401, "Refresh token is required"⟩
  | some t =>
    if isBlacklisted db.blacklist t then
      .error ⟨401, "Refresh token has been revoked"⟩
    else
      match jwtVerify t cfg.jwtRefreshSecret now with
      | .error .jsonWebTokenError => .error ⟨401, "Invalid refresh token"⟩
      | .error .tokenExpiredError => .error ⟨401, "Refresh token has expired"⟩
      | .ok p =>
        if p.type != .refresh then .error ⟨401, "Invalid refresh token"⟩
        else
          match findByRefreshToken db t with
          | none => .error ⟨401, "Invalid refresh token"⟩
          | some u =>
            if !u.isActive then .error ⟨401, deactivatedMsg⟩
            else if isLocked u now then
              .error ⟨401, "Account is temporarily locked"⟩
            else .ok u

/-- Successful refresh response body. -/
structure RefreshOk where
  accessToken : Tok
  refreshToken : Tok
deriving DecidableEq, Repr

/-- The in-memory membership rewrite the rotation performs on the honored
user document: `generateRefreshToken` pushes the new token,
`removeRefreshToken` filters the presented one out, and `addRefreshToken`
pushes the new token a second time. -/
def rotUser (cfg : Cfg) (u : User) (t : Tok) (now : Nat) : User :=
  addRefreshToken
    (removeRefreshToken (addRefreshToken u (mkRefreshTok cfg u now)) t)
    (mkRefreshTok cfg u now)

/-- `authController.refreshToken`: verify, membership lookup, active check,
then rotation — `generateRefreshToken` pushes the new token,
`removeRefreshToken` filters out the presented one, `addRefreshToken` pushes
the new token a second time, and the presented token is blacklisted with
reason `refresh` when its decoded payload carries an expiry.  `storeOk` is
the availability of the registry insert (its boolean result is ignored, as in
the source). -/
def refreshCtrl (cfg : Cfg) (db : Db) (rt : Option Tok) (now : Nat)
    (storeOk : Bool) : Except ErrResp RefreshOk × Db :=
  match rt with
  | none => (.error ⟨401, "Refresh token is required"⟩, db)
  | some t =>
    match jwtVerify t cfg.jwtRefreshSecret now with
    | .error .jsonWebTokenError => (.error ⟨401, "Invalid refresh token"⟩, db)
    | .error .tokenExpiredError =>
      (.error ⟨401, "Refresh token has expired"⟩, db)
    | .ok _ =>
      match findByRefreshToken db t with
      | none => (.error ⟨401, "Invalid refresh token"⟩, db)
      | some u =>
        if !u.isActive then (.error ⟨401, deactivatedMsg⟩, db)
        else
          let newAccess := generateAccessToken cfg u now
          let newRefresh := mkRefreshTok cfg u now
          let db1 := saveUser db (rotUser cfg u t now)
          let bl1 :=
            match tokExp t with
            | some e => (addToBlacklist db1.blacklist storeOk t u.id .refresh e "refresh").1
            | none => db1.blacklist
          (.ok ⟨newAccess, newRefresh⟩, { db1 with blacklist := bl1 })

/-- A request body presented to the refresh endpoint: the `refreshToken`
field that the auth middleware and controller read (`none` when absent),
plus the remaining JSON fields, which only the schema-validation middleware
inspects. -/
structure ReqBody where
  refreshToken : Option Tok
  rest : List (String × JVal)
deriving DecidableEq, Repr

/-- Modelled from the spec: the `validate(loginSchema)` middleware that the
auth routes file runs before the refresh validator.  Its implementation
(`middleware/validate.js` and the `loginSchema` of `validations/auth.js`)
is not among the source files — only their imports and call sites are — so
the schema check is kept abstract as a boolean function `schemaOk` of the
request body alone (deterministic: identical bodies validate identically),
with a rejected body answered by an error response instead of reaching the
handlers, per the spec's wire contract (§6) under which the refresh
operation consumes the refresh token from the request body. -/
def validateLoginSchema (schemaOk : ReqBody → Bool) (body : ReqBody) :
    Except ErrResp ReqBody :=
  if schemaOk body then .ok body else .error ⟨400, "Validation error"⟩

/-- `POST /auth/refresh` as registered in the auth routes file:
`router.post('/refresh', validate(loginSchema), authenticateRefreshToken,
refreshToken)` — the schema-validation middleware runs first, then the
refresh-class validator with its revocation-registry and membership checks,
then the rotation controller. -/
def refreshRoute (cfg : Cfg) (schemaOk : ReqBody → Bool) (db : Db)
    (body : ReqBody) (now : Nat) (storeOk : Bool) :
    Except ErrResp RefreshOk × Db :=
  match validateLoginSchema schemaOk body with
  | .error r => (.error r, db)
  | .ok _ =>
    match authenticateRefreshToken cfg db body.refreshToken now with
    | .error r => (.error r, db)
    | .ok _ => refreshCtrl cfg db body.refreshToken now storeOk

/-- `authController.logout`: best-effort blacklisting of whichever tokens are
presented (a token that does not decode or carries no expiry is skipped),
removal of the presented refresh token from membership, and an
unconditionally successful response — the boolean results of
`addToBlacklist` are never inspected. -/
def logout (db : Db) (reqUser : User) (accessToken refreshToken : Option Tok)
    (storeOk : Bool) : SimpleResp × Db :=
  let bl1 :=
    match accessToken with
    | some t =>
      match tokExp t with
      | some e => (addToBlacklist db.blacklist storeOk t reqUser.id .access e "logout").1
      | none => db.blacklist
    | none => db.blacklist
  let bl2 :=
    match refreshToken with
    | some t =>
      match tokExp t with
      | some e => (addToBlacklist bl1 storeOk t reqUser.id .refresh e "logout").1
      | none => bl1
    | none => bl1
  let db2 :=
    match refreshToken with
    | some t => saveUser { db with blacklist := bl2 } (removeRefreshToken reqUser t)
    | none => { db with blacklist := bl2 }
  (⟨200, true, "Logged out successfully"⟩, db2)

/-- `authController.logoutAll`: clear the authenticated user's membership set
in one save and report success. -/
def logoutAll (db : Db) (reqUser : User) : SimpleResp × Db :=
  let u1 : User := { reqUser with refreshTokens := [] }
  (⟨200, true, "Logged out from all devices successfully"⟩, saveUser db u1)

/-- Whether an `Except` result is a success. -/
def exceptOk {ε α : Type} : Except ε α → Bool
  | .ok _ => true
  | .error _ => false

/-- Refresh-token projection of a login result. -/
def loginRefreshTok (r : Except ErrResp LoginOk) : Option Tok :=
  match r with
  | .ok b => some b.refreshToken
  | .error _ => none

/-- Concrete configuration used by witnesses and counterexamples. -/
def cfgW : Cfg := ⟨"access-secret", "refresh-secret"⟩

/-- A concrete outstanding refresh token of `userW`. -/
def rtokW : Tok := .signed ⟨"u1", none, none, .refresh, some 100⟩ "refresh-secret"

/-- A concrete active account holding `rtokW`. -/
def userW : User :=
  ⟨"u1", "Ann", "a@x.com", bcryptHash "pw", "user", true, [rtokW], none, 0, none⟩

/-- A concrete store with `userW` and an empty revocation registry. -/
def dbW : Db := ⟨[userW], []⟩

/-- A concrete account whose lock has already expired with the counter at
the threshold. -/
def userExpiredLock : User :=
  ⟨"u1", "Ann", "a@x.com", bcryptHash "pw", "user", true, [], none, 5, some 1000⟩

/-- A concrete existing but deactivated account. -/
def userInactive : User :=
  ⟨"u2", "Bob", "b@x.com", bcryptHash "pw", "user", false, [], none, 0, none⟩

/- ------------------------------------------------------------------ -/
/- Helper lemmas.                                                      -/
/- ------------------------------------------------------------------ -/

theorem saveUser_blacklist (db : Db) (u : User) :
    (saveUser db u).blacklist = db.blacklist := rfl

theorem isLocked_of_none (u : User) (now : Nat) (h : u.lockUntil = none) :
    isLocked u now = false := by
  unfold isLocked
  rw [h]

theorem isLocked_of_past (u : User) (now L : Nat) (h : u.lockUntil = some L)
    (hp : L ≤ now) : isLocked u now = false := by
  unfold isLocked
  rw [h]
  simp
  omega

theorem isLocked_of_future (u : User) (now L : Nat) (h : u.lockUntil = some L)
    (hf : now < L) : isLocked u now = true := by
  unfold isLocked
  rw [h]
  simpa using hf

theorem incLA_id (u : User) (now : Nat) :
    (incLoginAttempts u now).id = u.id := by
  unfold incLoginAttempts
  split <;> rfl

theorem incLA_email (u : User) (now : Nat) :
    (incLoginAttempts u now).email = u.email := by
  unfold incLoginAttempts
  split <;> rfl

theorem incLA_password (u : User) (now : Nat) :
    (incLoginAttempts u now).password = u.password := by
  unfold incLoginAttempts
  split <;> rfl

theorem incLA_isActive (u : User) (now : Nat) :
    (incLoginAttempts u now).isActive = u.isActive := by
  unfold incLoginAttempts
  split <;> rfl

theorem incLA_attempts (u : User) (now : Nat) :
    (incLoginAttempts u now).loginAttempts = u.loginAttempts + 1 := by
  unfold incLoginAttempts
  split <;> rfl

theorem incLA_lockUntil_low (u : User) (now : Nat)
    (h : u.loginAttempts + 1 < 5) :
    (incLoginAttempts u now).lockUntil = u.lockUntil := by
  unfold incLoginAttempts
  split
  · rename_i hc
    simp only [Bool.and_eq_true, decide_eq_true_eq] at hc
    omega
  · rfl

theorem incLA_lockUntil_high (u : User) (now : Nat)
    (h5 : 5 ≤ u.loginAttempts + 1) (hnl : isLocked u now = false) :
    (incLoginAttempts u now).lockUntil = some (now + lockDurationMs) := by
  have hsame :
      isLocked { u with loginAttempts := u.loginAttempts + 1 } now
        = isLocked u now := rfl
  unfold incLoginAttempts
  split
  · rfl
  · rename_i hc
    exfalso
    apply hc
    rw [Bool.and_eq_true, decide_eq_true_eq]
    refine ⟨h5, ?_⟩
    rw [hsame, hnl]
    rfl

theorem comparePassword_congr (u v : User) (w : String)
    (h : u.password = v.password) :
    comparePassword u w = comparePassword v w := by
  unfold comparePassword
  rw [h]

theorem findByEmail_singleton (u : User) (bl : List BkEntry) :
    findByEmail ⟨[u], bl⟩ u.email = some u := by
  simp [findByEmail]

theorem login_fail_step (cfg : Cfg) (u : User) (bl : List BkEntry)
    (w : String) (now : Nat) (s : Bool)
    (hact : u.isActive = true) (hnl : isLocked u now = false)
    (hpw : comparePassword u w = false) :
    login cfg ⟨[u], bl⟩ u.email w now s
      = (.error ⟨401, invalidCredMsg⟩, ⟨[incLoginAttempts u now], bl⟩) := by
  have hid : (incLoginAttempts u now).id = u.id := incLA_id u now
  simp [login, findByEmail_singleton, hact, hnl, hpw, saveUser, hid]

theorem login_locked_step (cfg : Cfg) (u : User) (bl : List BkEntry)
    (pw : String) (now : Nat) (s : Bool)
    (hact : u.isActive = true) (hl : isLocked u now = true) :
    login cfg ⟨[u], bl⟩ u.email pw now s
      = (.error ⟨401, lockedMsg⟩, ⟨[u], bl⟩) := by
  simp [login, findByEmail_singleton, hact, hl]

/-- C5 counterexample: a login against a store with no account for the email
and a login against the same email on a deactivated account return different
messages, so the three failure cases are not the identical signal the claim
states. -/
theorem c5_cex :
    (login cfgW ⟨[], []⟩ "b@x.com" "pw" 0 true).1
        = .error ⟨401, "Invalid email or password"⟩
    ∧ (login cfgW ⟨[userInactive], []⟩ "b@x.com" "pw" 0 true).1
        = .error ⟨401, "User account is deactivated"⟩
    ∧ ("User account is deactivated" : String) ≠ "Invalid email or password" := by
  refine ⟨rfl, rfl, by decide⟩

/-- C5 (amended): unknown email and wrong password return the identical
`401 Invalid email or password` response, but an existing, deactivated
account returns the distinct `401 User account is deactivated` message, so
that case is distinguishable by a caller. -/
theorem c5_login_failure_uniformity (cfg : Cfg) (db : Db) (e pw : String)
    (now : Nat) (s : Bool) :
    (findByEmail db e = none →
      (login cfg db e pw now s).1 = .error ⟨401, invalidCredMsg⟩)
    ∧ (∀ u, findByEmail db e = some u → u.isActive = true →
        isLocked u now = false → comparePassword u pw = false →
        (login cfg db e pw now s).1 = .error ⟨401, invalidCredMsg⟩)
    ∧ (∀ u, findByEmail db e = some u → u.isActive = false →
        (login cfg db e pw now s).1 = .error ⟨401, deactivatedMsg⟩)
    ∧ invalidCredMsg ≠ deactivatedMsg := by
  refine ⟨?_, ?_, ?_, by decide⟩
  · intro h
    simp [login, h]
  · intro u hu ha hl hp
    simp [login, hu, ha, hl, hp]
  · intro u hu ha
    simp [login, hu, ha]

/-- C5 witness: instantiates the amended statement on the concrete store
`dbW` for a wrong password against `userW`. -/
theorem c5_witness :
    (login cfgW dbW "a@x.com" "bad" 0 true).1 = .error ⟨401, invalidCredMsg⟩ :=
  (c5_login_failure_uniformity cfgW dbW "a@x.com" "bad" 0 true).2.1 userW
    (by rfl) (by rfl) (by rfl) (by decide)

/-- C7: with distinct signing secrets, a token signed with the refresh
secret is never resolved to a user by the access-token validation path, and
a token signed with the access secret is never resolved to a user by the
refresh-token validation path — every such presentation ends in an error
response. -/
theorem c7_cross_class_rejection (cfg : Cfg) (db : Db) (now : Nat)
    (hd : cfg.jwtSecret ≠ cfg.jwtRefreshSecret) :
    (∀ p u, authenticateToken cfg db (some (.signed p cfg.jwtRefreshSecret)) now
        ≠ .ok u)
    ∧ (∀ p u, authenticateRefreshToken cfg db (some (.signed p cfg.jwtSecret)) now
        ≠ .ok u) := by
  have h1 : (cfg.jwtRefreshSecret == cfg.jwtSecret) = false := by
    simpa using Ne.symm hd
  have h2 : (cfg.jwtSecret == cfg.jwtRefreshSecret) = false := by
    simpa using hd
  constructor
  · intro p u h
    have hv : jwtVerify (.signed p cfg.jwtRefreshSecret) cfg.jwtSecret now
        = .error .jsonWebTokenError := by
      simp [jwtVerify, h1]
    simp only [authenticateToken] at h
    split at h
    · exact absurd h (by simp)
    · rw [hv] at h
      exact absurd h (by simp)
  · intro p u h
    have hv : jwtVerify (.signed p cfg.jwtSecret) cfg.jwtRefreshSecret now
        = .error .jsonWebTokenError := by
      simp [jwtVerify, h2]
    simp only [authenticateRefreshToken] at h
    split at h
    · exact absurd h (by simp)
    · rw [hv] at h
      exact absurd h (by simp)

/-- C7 witness: with the concrete distinct secrets of `cfgW`, a concrete
refresh-secret-signed token is rejected by the access path. -/
theorem c7_witness :
    cfgW.jwtSecret ≠ cfgW.jwtRefreshSecret
    ∧ authenticateToken cfgW dbW (some rtokW) 0 ≠ .ok userW :=
  ⟨by decide,
   (c7_cross_class_rejection cfgW dbW 0 (by decide)).1
     ⟨"u1", none, none, .refresh, some 100⟩ userW⟩

theorem login_fail_step' (cfg : Cfg) (u : User) (bl : List BkEntry)
    (e w : String) (now : Nat) (s : Bool) (he : u.email = e)
    (hact : u.isActive = true) (hnl : isLocked u now = false)
    (hpw : comparePassword u w = false) :
    login cfg ⟨[u], bl⟩ e w now s
      = (.error ⟨401, invalidCredMsg⟩, ⟨[incLoginAttempts u now], bl⟩) := by
  subst he
  exact login_fail_step cfg u bl w now s hact hnl hpw

theorem login_locked_step' (cfg : Cfg) (u : User) (bl : List BkEntry)
    (e pw : String) (now : Nat) (s : Bool) (he : u.email = e)
    (hact : u.isActive = true) (hl : isLocked u now = true) :
    login cfg ⟨[u], bl⟩ e pw now s = (.error ⟨401, lockedMsg⟩, ⟨[u], bl⟩) := by
  subst he
  exact login_locked_step cfg u bl pw now s hact hl

/-- C3: starting from a zero failed-attempt counter, five consecutive failed
logins leave the stored account with counter 5 and lock-until equal to the
fifth attempt's time plus 15 minutes, and a sixth login attempt inside the
lock window is rejected with the locked error for every candidate password —
the correct one included — so the password is not consulted. -/
theorem c3_lockout_threshold (cfg : Cfg) (bl : List BkEntry) (u0 : User)
    (w1 w2 w3 w4 w5 : String) (t1 t2 t3 t4 t5 t6 : Nat) (s : Bool)
    (hact : u0.isActive = true)
    (hatt : u0.loginAttempts = 0)
    (hlock : u0.lockUntil = none)
    (hw1 : comparePassword u0 w1 = false)
    (hw2 : comparePassword u0 w2 = false)
    (hw3 : comparePassword u0 w3 = false)
    (hw4 : comparePassword u0 w4 = false)
    (hw5 : comparePassword u0 w5 = false)
    (ht6 : t6 < t5 + lockDurationMs) :
    ∃ u5 : User,
      (login cfg (login cfg (login cfg (login cfg (login cfg ⟨[u0], bl⟩
          u0.email w1 t1 s).2 u0.email w2 t2 s).2 u0.email w3 t3 s).2
          u0.email w4 t4 s).2 u0.email w5 t5 s).2 = ⟨[u5], bl⟩
      ∧ u5.loginAttempts = 5
      ∧ u5.lockUntil = some (t5 + lockDurationMs)
      ∧ ∀ pw6, login cfg ⟨[u5], bl⟩ u0.email pw6 t6 s
          = (.error ⟨401, lockedMsg⟩, ⟨[u5], bl⟩) := by
  set u1 := incLoginAttempts u0 t1 with hu1
  set u2 := incLoginAttempts u1 t2 with hu2
  set u3 := incLoginAttempts u2 t3 with hu3
  set u4 := incLoginAttempts u3 t4 with hu4
  set u5 := incLoginAttempts u4 t5 with hu5
  have em1 : u1.email = u0.email := incLA_email u0 t1
  have em2 : u2.email = u0.email := (incLA_email u1 t2).trans em1
  have em3 : u3.email = u0.email := (incLA_email u2 t3).trans em2
  have em4 : u4.email = u0.email := (incLA_email u3 t4).trans em3
  have em5 : u5.email = u0.email := (incLA_email u4 t5).trans em4
  have act1 : u1.isActive = true := (incLA_isActive u0 t1).trans hact
  have act2 : u2.isActive = true := (incLA_isActive u1 t2).trans act1
  have act3 : u3.isActive = true := (incLA_isActive u2 t3).trans act2
  have act4 : u4.isActive = true := (incLA_isActive u3 t4).trans act3
  have act5 : u5.isActive = true := (incLA_isActive u4 t5).trans act4
  have pw1 : u1.password = u0.password := incLA_password u0 t1
  have pw2 : u2.password = u0.password := (incLA_password u1 t2).trans pw1
  have pw3 : u3.password = u0.password := (incLA_password u2 t3).trans pw2
  have pw4 : u4.password = u0.password := (incLA_password u3 t4).trans pw3
  have a1 : u1.loginAttempts = 1 := by rw [hu1, incLA_attempts, hatt]
  have a2 : u2.loginAttempts = 2 := by rw [hu2, incLA_attempts, a1]
  have a3 : u3.loginAttempts = 3 := by rw [hu3, incLA_attempts, a2]
  have a4 : u4.loginAttempts = 4 := by rw [hu4, incLA_attempts, a3]
  have a5 : u5.loginAttempts = 5 := by rw [hu5, incLA_attempts, a4]
  have l1 : u1.lockUntil = none := by
    rw [hu1, incLA_lockUntil_low u0 t1 (by omega)]
    exact hlock
  have l2 : u2.lockUntil = none := by
    rw [hu2, incLA_lockUntil_low u1 t2 (by omega)]
    exact l1
  have l3 : u3.lockUntil = none := by
    rw [hu3, incLA_lockUntil_low u2 t3 (by omega)]
    exact l2
  have l4 : u4.lockUntil = none := by
    rw [hu4, incLA_lockUntil_low u3 t4 (by omega)]
    exact l3
  have l5 : u5.lockUntil = some (t5 + lockDurationMs) := by
    rw [hu5]
    exact incLA_lockUntil_high u4 t5 (by omega) (isLocked_of_none u4 t5 l4)
  have hd1 : (login cfg ⟨[u0], bl⟩ u0.email w1 t1 s).2 = ⟨[u1], bl⟩ := by
    rw [login_fail_step' cfg u0 bl u0.email w1 t1 s rfl hact
      (isLocked_of_none u0 t1 hlock) hw1]
  have hd2 : (login cfg ⟨[u1], bl⟩ u0.email w2 t2 s).2 = ⟨[u2], bl⟩ := by
    rw [login_fail_step' cfg u1 bl u0.email w2 t2 s em1 act1
      (isLocked_of_none u1 t2 l1) ((comparePassword_congr u1 u0 w2 pw1).trans hw2)]
  have hd3 : (login cfg ⟨[u2], bl⟩ u0.email w3 t3 s).2 = ⟨[u3], bl⟩ := by
    rw [login_fail_step' cfg u2 bl u0.email w3 t3 s em2 act2
      (isLocked_of_none u2 t3 l2) ((comparePassword_congr u2 u0 w3 pw2).trans hw3)]
  have hd4 : (login cfg ⟨[u3], bl⟩ u0.email w4 t4 s).2 = ⟨[u4], bl⟩ := by
    rw [login_fail_step' cfg u3 bl u0.email w4 t4 s em3 act3
      (isLocked_of_none u3 t4 l3) ((comparePassword_congr u3 u0 w4 pw3).trans hw4)]
  have hd5 : (login cfg ⟨[u4], bl⟩ u0.email w5 t5 s).2 = ⟨[u5], bl⟩ := by
    rw [login_fail_step' cfg u4 bl u0.email w5 t5 s em4 act4
      (isLocked_of_none u4 t5 l4) ((comparePassword_congr u4 u0 w5 pw4).trans hw5)]
  refine ⟨u5, ?_, a5, l5, ?_⟩
  · rw [hd1, hd2, hd3, hd4, hd5]
  · intro pw6
    exact login_locked_step' cfg u5 bl u0.email pw6 t6 s em5 act5
      (isLocked_of_future u5 t6 (t5 + lockDurationMs) l5 ht6)

/-- C3 witness: the concrete account `userW` locked by five wrong passwords
at times 1..5, with the sixth attempt at time 6. -/
theorem c3_witness :
    ∃ u5 : User,
      (login cfgW (login cfgW (login cfgW (login cfgW (login cfgW ⟨[userW], []⟩
          userW.email "bad" 1 true).2 userW.email "bad" 2 true).2
          userW.email "bad" 3 true).2 userW.email "bad" 4 true).2
          userW.email "bad" 5 true).2 = ⟨[u5], []⟩
      ∧ u5.loginAttempts = 5
      ∧ u5.lockUntil = some (5 + lockDurationMs)
      ∧ ∀ pw6, login cfgW ⟨[u5], []⟩ userW.email pw6 6 true
          = (.error ⟨401, lockedMsg⟩, ⟨[u5], []⟩) :=
  c3_lockout_threshold cfgW [] userW "bad" "bad" "bad" "bad" "bad" 1 2 3 4 5 6
    true rfl rfl rfl (by decide) (by decide) (by decide) (by decide) (by decide)
    (by decide)

/-- C4 counterexample: for a concrete account whose lock has expired
(lock-until 1000, now 2000) and whose counter is 5, a single failed login —
not five — re-enters the Locked state: the stored account is locked again
immediately afterwards. -/
theorem c4_cex :
    isLocked userExpiredLock 2000 = false
    ∧ ((login cfgW ⟨[userExpiredLock], []⟩ "a@x.com" "bad" 2000 true).2.users.map
        (fun v => isLocked v 2001)) = [true] := ⟨rfl, rfl⟩

/-- C4 (amended): lock expiry does not reset the failed-attempt counter.
Because the counter is still at (or beyond) the threshold, a single failed
login after the lock has expired immediately re-locks the account for
another 15 minutes. -/
theorem c4_relock_after_expiry (cfg : Cfg) (bl : List BkEntry) (u : User)
    (w : String) (now L : Nat) (s : Bool)
    (hact : u.isActive = true)
    (hexp : u.lockUntil = some L) (hpast : L ≤ now)
    (hatt : 4 ≤ u.loginAttempts)
    (hpw : comparePassword u w = false) :
    login cfg ⟨[u], bl⟩ u.email w now s
      = (.error ⟨401, invalidCredMsg⟩, ⟨[incLoginAttempts u now], bl⟩)
    ∧ (incLoginAttempts u now).lockUntil = some (now + lockDurationMs)
    ∧ ∀ now2, now2 < now + lockDurationMs →
        isLocked (incLoginAttempts u now) now2 = true := by
  have hnl : isLocked u now = false := isLocked_of_past u now L hexp hpast
  have hlk : (incLoginAttempts u now).lockUntil = some (now + lockDurationMs) :=
    incLA_lockUntil_high u now (by omega) hnl
  refine ⟨login_fail_step cfg u bl w now s hact hnl hpw, hlk, ?_⟩
  intro now2 h2
  exact isLocked_of_future (incLoginAttempts u now) now2 (now + lockDurationMs)
    hlk h2

/-- C4 witness: the amended statement instantiated on the concrete expired
lock account. -/
theorem c4_witness :
    login cfgW ⟨[userExpiredLock], []⟩ userExpiredLock.email "bad" 2000 true
      = (.error ⟨401, invalidCredMsg⟩,
         ⟨[incLoginAttempts userExpiredLock 2000], []⟩)
    ∧ (incLoginAttempts userExpiredLock 2000).lockUntil
        = some (2000 + lockDurationMs)
    ∧ ∀ now2, now2 < 2000 + lockDurationMs →
        isLocked (incLoginAttempts userExpiredLock 2000) now2 = true :=
  c4_relock_after_expiry cfgW [] userExpiredLock "bad" 2000 1000 true rfl rfl
    (by decide) (by decide) (by decide)

theorem authRefresh_ok_elim (cfg : Cfg) (db : Db) (t : Tok) (now : Nat)
    (u : User)
    (h : authenticateRefreshToken cfg db (some t) now = .ok u) :
    isBlacklisted db.blacklist t = false
    ∧ ∃ p, jwtVerify t cfg.jwtRefreshSecret now = .ok p
      ∧ p.type = .refresh
      ∧ findByRefreshToken db t = some u
      ∧ u.isActive = true
      ∧ isLocked u now = false := by
  simp only [authenticateRefreshToken] at h
  split at h
  · simp at h
  · rename_i hbl
    simp only [Bool.not_eq_true] at hbl
    split at h
    · simp at h
    · simp at h
    · rename_i p hv
      split at h
      · simp at h
      · rename_i hty
        simp only [bne, Bool.not_eq_true, Bool.not_eq_eq_eq_not, Bool.not_true,
          beq_eq_false_iff_ne, ne_eq, Decidable.not_not] at hty
        split at h
        · simp at h
        · rename_i u' hfind
          split at h
          · simp at h
          · rename_i hact
            simp only [Bool.not_eq_true', Bool.not_eq_false] at hact
            split at h
            · simp at h
            · rename_i hnl
              simp only [Bool.not_eq_true] at hnl
              have : u' = u := Except.ok.inj h
              subst this
              exact ⟨hbl, p, hv, by simpa using hty, hfind, hact, hnl⟩

theorem refreshRoute_success_state (cfg : Cfg) (schemaOk : ReqBody → Bool)
    (db : Db) (body : ReqBody) (t : Tok) (now : Nat)
    (u : User) (p : Payload) (e : Nat)
    (hsch : schemaOk body = true)
    (htok : body.refreshToken = some t)
    (hbl : isBlacklisted db.blacklist t = false)
    (hv : jwtVerify t cfg.jwtRefreshSecret now = .ok p)
    (hty : p.type = .refresh)
    (hfind : findByRefreshToken db t = some u)
    (hact : u.isActive = true)
    (hnl : isLocked u now = false)
    (hexp : tokExp t = some e) :
    refreshRoute cfg schemaOk db body now true
      = (.ok ⟨generateAccessToken cfg u now, mkRefreshTok cfg u now⟩,
         ⟨(saveUser db (rotUser cfg u t now)).users,
          db.blacklist ++ [⟨t, .refresh, u.id, e, "refresh"⟩]⟩) := by
  have hmw : authenticateRefreshToken cfg db (some t) now = .ok u := by
    simp [authenticateRefreshToken, hbl, hv, hty, hfind, hact, hnl]
  have hbl1 : isBlacklisted (saveUser db (rotUser cfg u t now)).blacklist t
      = false := hbl
  simp [refreshRoute, validateLoginSchema, hsch, htok, hmw, refreshCtrl, hv,
    hfind, hact, hexp, addToBlacklist, hbl1, hbl, saveUser_blacklist]

theorem refreshCtrl_ok_elim (cfg : Cfg) (db : Db) (t : Tok) (now : Nat)
    (storeOk : Bool)
    (h : exceptOk (refreshCtrl cfg db (some t) now storeOk).1 = true) :
    ∃ p u, jwtVerify t cfg.jwtRefreshSecret now = .ok p
      ∧ findByRefreshToken db t = some u
      ∧ u.isActive = true := by
  cases hv : jwtVerify t cfg.jwtRefreshSecret now with
  | error err =>
    cases err <;> simp [refreshCtrl, hv, exceptOk] at h
  | ok p =>
    cases hfind : findByRefreshToken db t with
    | none => simp [refreshCtrl, hv, hfind, exceptOk] at h
    | some u =>
      cases hact : u.isActive with
      | false => simp [refreshCtrl, hv, hfind, hact, exceptOk] at h
      | true => exact ⟨p, u, rfl, rfl, hact⟩

theorem refreshCtrl_success_users (cfg : Cfg) (db : Db) (t : Tok) (now : Nat)
    (storeOk : Bool) (u : User) (p : Payload)
    (hv : jwtVerify t cfg.jwtRefreshSecret now = .ok p)
    (hfind : findByRefreshToken db t = some u)
    (hact : u.isActive = true) :
    ((refreshCtrl cfg db (some t) now storeOk).2).users
      = (saveUser db (rotUser cfg u t now)).users := by
  cases he : tokExp t with
  | none => simp [refreshCtrl, hv, hfind, hact, he]
  | some e => simp [refreshCtrl, hv, hfind, hact, he]

/-- C1: refresh rotation is single-use.  If a first refresh call honors a
presented token (one carrying an expiry, as every issued refresh token
does), then on the resulting store a second refresh call presenting the same
token is rejected as revoked; the rotation has inserted the presented token
into the revocation registry with reason `refresh` and — whenever the newly
minted token differs from the presented one — removed it from the owner's
membership set, and the refresh path consults the registry and the
membership set before honoring any token. -/
theorem c1_rotation_single_use (cfg : Cfg) (schemaOk : ReqBody → Bool)
    (db : Db) (body : ReqBody) (t : Tok) (now : Nat)
    (htok : body.refreshToken = some t)
    (hfirst : exceptOk (refreshRoute cfg schemaOk db body now true).1 = true)
    (hexp : ∃ e, tokExp t = some e) :
    (∀ now2 storeOk2,
      (refreshRoute cfg schemaOk (refreshRoute cfg schemaOk db body now true).2
          body now2 storeOk2).1
        = .error ⟨401, "Refresh token has been revoked"⟩)
    ∧ (∃ en ∈ ((refreshRoute cfg schemaOk db body now true).2).blacklist,
        en.token = t ∧ en.reason = "refresh")
    ∧ (∀ u0, findByRefreshToken db t = some u0 →
        mkRefreshTok cfg u0 now ≠ t →
        ∀ v ∈ ((refreshRoute cfg schemaOk db body now true).2).users,
          v.id = u0.id → hasRefreshToken v t = false) := by
  obtain ⟨e, he⟩ := hexp
  have hsch : schemaOk body = true := by
    by_contra hc
    rw [Bool.not_eq_true] at hc
    simp [refreshRoute, validateLoginSchema, hc, exceptOk] at hfirst
  have hex : ∃ w, authenticateRefreshToken cfg db (some t) now = .ok w := by
    simp only [refreshRoute, validateLoginSchema, hsch, if_true, htok] at hfirst
    cases hmw : authenticateRefreshToken cfg db (some t) now with
    | error r =>
      rw [hmw] at hfirst
      simp [exceptOk] at hfirst
    | ok w => exact ⟨w, rfl⟩
  obtain ⟨u, hmw⟩ := hex
  obtain ⟨hbl, p, hv, hty, hfind, hact, hnl⟩ :=
    authRefresh_ok_elim cfg db t now u hmw
  have hstate := refreshRoute_success_state cfg schemaOk db body t now u p e
    hsch htok hbl hv hty hfind hact hnl he
  rw [hstate]
  refine ⟨?_, ?_, ?_⟩
  · intro now2 storeOk2
    have hrev :
        isBlacklisted
          ((⟨(saveUser db (rotUser cfg u t now)).users,
            db.blacklist ++ [⟨t, .refresh, u.id, e, "refresh"⟩]⟩ : Db)).blacklist
          t = true := by
      simp [isBlacklisted]
    simp [refreshRoute, validateLoginSchema, hsch, htok,
      authenticateRefreshToken, hrev]
  · exact ⟨⟨t, .refresh, u.id, e, "refresh"⟩, by simp, rfl, rfl⟩
  · intro u0 hfind0 hne v hvm hid
    have hu0 : u0 = u := by
      rw [hfind0] at hfind
      exact Option.some.inj hfind
    subst hu0
    have hne' : t ≠ mkRefreshTok cfg u0 now := Ne.symm hne
    simp only [saveUser, List.mem_map] at hvm
    obtain ⟨w, _, hfw⟩ := hvm
    split at hfw
    · rw [← hfw]
      simp [rotUser, hasRefreshToken, addRefreshToken, removeRefreshToken,
        hne', hne]
    · rename_i hnid
      simp only [beq_iff_eq] at hnid
      rw [← hfw] at hid
      exact absurd hid (by simpa [rotUser, addRefreshToken,
        removeRefreshToken] using hnid)

/-- C1 witness: on the concrete store `dbW`, with a schema check that
accepts the concrete body, the first refresh call with `rtokW` succeeds and
the second presentation of the same body is rejected as revoked. -/
theorem c1_witness :
    (refreshRoute cfgW (fun _ => true)
        (refreshRoute cfgW (fun _ => true) dbW ⟨some rtokW, []⟩ 0 true).2
        ⟨some rtokW, []⟩ 1 true).1
      = .error ⟨401, "Refresh token has been revoked"⟩ :=
  (c1_rotation_single_use cfgW (fun _ => true) dbW ⟨some rtokW, []⟩ rtokW 0
    rfl (by rfl) ⟨100, rfl⟩).1 1 true

/-- C9 (implicit): a successful refresh appends the newly minted refresh
token to the honored account's membership set twice — once inside
`generateRefreshToken` and once via the explicit `addRefreshToken` call — so
the stored membership set holds two copies of the new token, and a later
`removeRefreshToken` of that token removes both copies at once. -/
theorem c9_refresh_duplicate_membership (cfg : Cfg) (db : Db) (t : Tok)
    (now : Nat) (u0 : User) (storeOk : Bool)
    (hfirst : exceptOk (refreshCtrl cfg db (some t) now storeOk).1 = true)
    (hfind0 : findByRefreshToken db t = some u0)
    (hne : mkRefreshTok cfg u0 now ≠ t)
    (hnotin : u0.refreshTokens.count (mkRefreshTok cfg u0 now) = 0) :
    ∀ v ∈ ((refreshCtrl cfg db (some t) now storeOk).2).users, v.id = u0.id →
      v.refreshTokens.count (mkRefreshTok cfg u0 now) = 2
      ∧ (removeRefreshToken v (mkRefreshTok cfg u0 now)).refreshTokens.count
          (mkRefreshTok cfg u0 now) = 0 := by
  obtain ⟨p, u, hv, hfind, hact⟩ :=
    refreshCtrl_ok_elim cfg db t now storeOk hfirst
  have hu0 : u0 = u := by
    rw [hfind0] at hfind
    exact Option.some.inj hfind
  subst hu0
  rw [refreshCtrl_success_users cfg db t now storeOk u0 p hv hfind hact]
  intro v hvm hid
  simp only [saveUser, List.mem_map] at hvm
  obtain ⟨w, _, hfw⟩ := hvm
  split at hfw
  · rw [← hfw]
    have hq : (fun rt => !(rt == t)) (mkRefreshTok cfg u0 now) = true := by
      simp [hne]
    constructor
    · simp only [rotUser, addRefreshToken, removeRefreshToken]
      rw [List.count_append,
        List.count_filter (p := fun rt => !(rt == t))
          (a := mkRefreshTok cfg u0 now) hq,
        List.count_append, hnotin, List.count_singleton_self]
    · simp only [removeRefreshToken, rotUser, addRefreshToken]
      apply List.count_eq_zero.mpr
      intro hmem
      rw [List.mem_filter] at hmem
      simp at hmem
  · rename_i hnid
    simp only [beq_iff_eq] at hnid
    rw [← hfw] at hid
    exact absurd hid (by simpa [rotUser, addRefreshToken,
      removeRefreshToken] using hnid)

/-- C9 witness: after the concrete refresh-controller run on `rtokW`, the
stored account holds two copies of the newly minted token, and removing it
deletes both. -/
theorem c9_witness :
    (rotUser cfgW userW rtokW 0).refreshTokens.count (mkRefreshTok cfgW userW 0) = 2
    ∧ (removeRefreshToken (rotUser cfgW userW rtokW 0)
        (mkRefreshTok cfgW userW 0)).refreshTokens.count
        (mkRefreshTok cfgW userW 0) = 0 :=
  c9_refresh_duplicate_membership cfgW dbW rtokW 0 userW true (by rfl) rfl
    (by decide) (by decide) (rotUser cfgW userW rtokW 0) (by decide) rfl

/-- C6 (code bug): `generateRefreshToken` fires its `this.save()` without
awaiting it and `login` never inspects the outcome, so when the membership
write fails the newly minted refresh token is still returned to the caller
even though the store never recorded it — with `refreshSaveOk = false` the
response carries the token while the stored account's membership lacks it,
and with the save acknowledged the membership holds it. -/
theorem c6_issue_then_persist_bug :
    loginRefreshTok (login cfgW dbW "a@x.com" "pw" 5 false).1
      = some (mkRefreshTok cfgW userW 5)
    ∧ ((login cfgW dbW "a@x.com" "pw" 5 false).2.users.map
        (fun v => hasRefreshToken v (mkRefreshTok cfgW userW 5))) = [false]
    ∧ ((login cfgW dbW "a@x.com" "pw" 5 true).2.users.map
        (fun v => hasRefreshToken v (mkRefreshTok cfgW userW 5))) = [true] :=
  ⟨rfl, rfl, rfl⟩

/-- C2: logout-all empties the account's refresh-token membership set in one
update and leaves the revocation registry untouched, and afterwards every
refresh token previously held by the account — cryptographically valid,
unexpired and never individually blacklisted — is rejected by the refresh
validation path because the membership lookup no longer resolves it. -/
theorem c2_logout_all_invalidates (cfg : Cfg) (db : Db) (u : User) :
    (∀ v ∈ (logoutAll db u).2.users, v.id = u.id → v.refreshTokens = [])
    ∧ (logoutAll db u).2.blacklist = db.blacklist
    ∧ (∀ t now p, t ∈ u.refreshTokens →
        isBlacklisted db.blacklist t = false →
        jwtVerify t cfg.jwtRefreshSecret now = .ok p →
        p.type = .refresh →
        (∀ v ∈ db.users, v.id ≠ u.id → hasRefreshToken v t = false) →
        authenticateRefreshToken cfg (logoutAll db u).2 (some t) now
          = .error ⟨401, "Invalid refresh token"⟩) := by
  refine ⟨?_, rfl, ?_⟩
  · intro v hv hid
    simp only [logoutAll, saveUser, List.mem_map] at hv
    obtain ⟨w, _, hfw⟩ := hv
    split at hfw
    · rw [← hfw]
    · rename_i hne
      rw [← hfw] at hid
      simp only [beq_iff_eq] at hne
      exact absurd hid hne
  · intro t now p _ hbl hv hty hothers
    have hfind : findByRefreshToken (logoutAll db u).2 t = none := by
      apply List.find?_eq_none.mpr
      intro x hx
      simp only [logoutAll, saveUser, List.mem_map] at hx
      obtain ⟨w, hw, hfw⟩ := hx
      split at hfw
      · rw [← hfw]
        simp [hasRefreshToken]
      · rename_i hne
        simp only [beq_iff_eq] at hne
        rw [← hfw]
        rw [hothers w hw hne]
        simp
    have hbl2 : isBlacklisted ((logoutAll db u).2).blacklist t = false := hbl
    simp [authenticateRefreshToken, hbl2, hv, hty, hfind]

/-- C2 witness: after logout-all on `userW`, its previously issued concrete
refresh token `rtokW` — unexpired and never blacklisted — is rejected by the
refresh validation path. -/
theorem c2_witness :
    authenticateRefreshToken cfgW (logoutAll dbW userW).2 (some rtokW) 0
      = .error ⟨401, "Invalid refresh token"⟩ :=
  (c2_logout_all_invalidates cfgW dbW userW).2.2 rtokW 0
    ⟨"u1", none, none, .refresh, some 100⟩ (by decide) (by decide) (by rfl)
    (by decide)
    (by
      intro v hv hne
      simp only [dbW, List.mem_singleton] at hv
      exact absurd (by rw [hv]) hne)

/-- C8: a successful login returns a user object holding exactly the public
fields id, name, email, role and last-login; the serializer strips the
`password` and `refreshTokens` fields, so neither the stored password hash
nor the membership set appears in any field of the returned user object. -/
theorem c8_login_secret_confinement (cfg : Cfg) (db : Db) (e pw : String)
    (now : Nat) (s : Bool) (u : User) (b : LoginOk)
    (hfind : findByEmail db e = some u)
    (hok : (login cfg db e pw now s).1 = .ok b) :
    b.user = [("id", JVal.s u.id), ("name", JVal.s u.name),
      ("email", JVal.s u.email), ("role", JVal.s u.role),
      ("lastLogin", JVal.onat (some now))]
    ∧ ((toJSON u).map Prod.fst).contains "password" = false
    ∧ ((toJSON u).map Prod.fst).contains "refreshTokens" = false := by
  refine ⟨?_, rfl, rfl⟩
  simp only [login, hfind] at hok
  split at hok
  · exact absurd hok (by simp)
  · split at hok
    · exact absurd hok (by simp)
    · split at hok
      · exact absurd hok (by simp)
      · rw [show b = _ from (Except.ok.inj hok).symm]
        rfl

/-- C8 witness: a concrete successful login of `userW`. -/
theorem c8_witness :
    ∃ b : LoginOk, (login cfgW dbW "a@x.com" "pw" 5 true).1 = .ok b
      ∧ b.user = [("id", JVal.s "u1"), ("name", JVal.s "Ann"),
          ("email", JVal.s "a@x.com"), ("role", JVal.s "user"),
          ("lastLogin", JVal.onat (some 5))] := by
  refine ⟨⟨generateAccessToken cfgW (updateLastLogin userW 5) 5,
    mkRefreshTok cfgW (updateLastLogin userW 5) 5,
    jpick (toJSON (addRefreshToken (updateLastLogin userW 5)
      (mkRefreshTok cfgW (updateLastLogin userW 5) 5)))⟩, rfl, ?_⟩
  exact (c8_login_secret_confinement cfgW dbW "a@x.com" "pw" 5 true userW _
    (by rfl) (by rfl)).1

/-- C10: revocation recording fails open — `addToBlacklist` returns `false`
instead of raising on a storage error, `logout` ignores those results and
always reports success with the registry unchanged, and a presented token
that does not decode or carries no expiry is silently skipped and never
blacklisted. -/
theorem c10_revocation_fails_open :
    (∀ bl t uid ty ex r, addToBlacklist bl false t uid ty ex r = (bl, false))
    ∧ (∀ (db : Db) (u : User) (atk rt : Option Tok),
        (logout db u atk rt false).1 = ⟨200, true, "Logged out successfully"⟩
        ∧ (logout db u atk rt false).2.blacklist = db.blacklist)
    ∧ (∀ (db : Db) (u : User) (t1 t2 : Tok) (storeOk : Bool),
        tokExp t1 = none → tokExp t2 = none →
        (logout db u (some t1) (some t2) storeOk).1
            = ⟨200, true, "Logged out successfully"⟩
        ∧ (logout db u (some t1) (some t2) storeOk).2.blacklist
            = db.blacklist) := by
  refine ⟨?_, ?_, ?_⟩
  · intro bl t uid ty ex r
    simp [addToBlacklist]
  · intro db u atk rt
    refine ⟨rfl, ?_⟩
    cases atk with
    | none =>
      cases rt with
      | none => rfl
      | some t =>
        cases h : tokExp t <;> simp [logout, h, addToBlacklist, saveUser]
    | some t1 =>
      cases rt with
      | none =>
        cases h1 : tokExp t1 <;> simp [logout, h1, addToBlacklist, saveUser]
      | some t2 =>
        cases h1 : tokExp t1 <;> cases h2 : tokExp t2 <;>
          simp [logout, h1, h2, addToBlacklist, saveUser]
  · intro db u t1 t2 storeOk h1 h2
    exact ⟨rfl, by simp [logout, h1, h2, saveUser]⟩

/-- C10 witness: a storage-failure insert returns `false` without raising,
and a logout presenting two undecodable tokens leaves the registry empty
while still reporting success. -/
theorem c10_witness :
    addToBlacklist [] false rtokW "u1" .access 5 "logout" = ([], false)
    ∧ (logout dbW userW (some (.garbage "x")) (some (.garbage "y")) true).2.blacklist
        = [] :=
  ⟨c10_revocation_fails_open.1 [] rtokW "u1" .access 5 "logout",
   (c10_revocation_fails_open.2.2 dbW userW (.garbage "x") (.garbage "y")
     true rfl rfl).2⟩

end Curvv
